import Mathlib

set_option linter.unusedVariables false
set_option linter.unnecessarySeqFocus false

namespace CronJob

/-!
Shallow embedding of the auto-apply cron pipeline in src/src/cron_job.ts.
External calls (OpenAI completions, HH HTTP endpoints, PDF loading, Mongo
lookups) are modelled by explicit outcome values supplied as environment
arguments; the control flow, state updates and data projections are translated
from the source. JavaScript evaluation order matters in one place: each
posting of a page runs as an async closure created by Array.map, and such a
closure executes synchronously up to its first await, so the quota test and
the in-run dedup test of every closure of a page run before any sibling
closure has pushed a record. The per-page evaluation below therefore reads the
accumulator and counter as of the start of the page, which is exactly what the
source does.
-/

/-- One saved search criterion of a user: free text plus a status string
    (schema default Active). From PositionSchema, src/cron_job.ts lines 49-53. -/
structure Position where
  position : String
  status : String
  deriving DecidableEq

/-- The fields of a stored user that the pipeline logic reads: identifier, the
    optional list of saved positions (a missing list is guarded at the entry of
    processVacancies, line 446), the linked-HH-account flag and token, and the
    salary-filter flag. Other profile fields never branch the control flow.
    From IUser / UserSchema, src/cron_job.ts lines 23-84. -/
structure User where
  id : String
  positions : Option (List Position)
  hasHHAccount : Bool
  hhAccessToken : String
  only_with_salary : Bool
  deriving DecidableEq

/-- The parts of an external vacancy that the pipeline logic inspects:
    identifier, title and employer name (vacancy.employer.name flattened).
    The remaining salary, snippet and address fields are only interpolated into
    prompts or copied verbatim into the stored record. -/
structure Vacancy where
  id : String
  name : String
  employer_name : String
  deriving DecidableEq

/-- An accumulated application record, restricted to the fields the pipeline
    reads back: the three dedup keys, the owning user, and the generated cover
    letter, which the linked-account path stores without any null check. The
    other columns of the vacancyDoc literal (salary, logo, snippet, address,
    url, flags) are verbatim copies of the posting. From src/cron_job.ts
    lines 510-524. -/
structure VacancyDoc where
  vacancy_id : String
  job_name : String
  employer_name : String
  user : String
  cover_letter : Option String
  deriving DecidableEq

/-- Quota policy, src/cron_job.ts lines 362-366: numPositions at most 4 gives
    7, numPositions at least 8 gives 2, otherwise 6. -/
def getApplicationsPerPosition (numPositions : Nat) : Nat :=
  if numPositions ≤ 4 then 7
  else if numPositions ≥ 8 then 2
  else 6

/-- Number of criteria whose status is Active. This definition follows the
    words of the specification (count of active criteria for a user) and
    exists only to compare with the computation in the code, which passes
    user.positions.length at src/cron_job.ts line 448. -/
def activeCriterionCount (ps : List Position) : Nat :=
  (ps.filter fun p => p.status == "Active").length

/-- Criteria for which processUsers launches a run: truthy (nonempty) text and
    status Active. From src/cron_job.ts line 553. -/
def positionsProcessed (ps : List Position) : List Position :=
  ps.filter fun p => p.position != "" && p.status == "Active"

/-- Outcome of the relevance completion call for one posting, as observed by
    isSuitableVacancy: the call rejects, the response fails to parse to an
    object with a boolean verdict, or it parses to a verdict. -/
inductive ClassifierOutcome where
  | throws
  | unparsable
  | parsed (isSuitable : Bool)
  deriving DecidableEq

/-- Relevance classifier, src/cron_job.ts lines 414-443: returns the parsed
    isSuitable verdict; the catch block turns a rejected completion call or a
    JSON parse failure into false. -/
def isSuitableVacancy : ClassifierOutcome → Bool
  | .parsed b => b
  | .throws => false
  | .unparsable => false

/-- Outcome of the cover-letter completion call: the call rejects, or it
    resolves with a message whose content may itself be null. -/
inductive GeneratorOutcome where
  | throws
  | content (text : Option String)
  deriving DecidableEq

/-- Document generator, src/cron_job.ts lines 368-412: returns the completion
    content (possibly null) and returns null when the call rejects. -/
def generateCoverLetter : GeneratorOutcome → Option String
  | .content t => t
  | .throws => none

/-- Outcome of one HTTP call made through axios: rejected, or resolved with
    response data. -/
inductive HttpOutcome where
  | throws
  | ok (data : String)
  deriving DecidableEq

/-- Result of sendNegotiation as observed by its caller: the endpoint response
    data, or the literal soft-failure object built in the catch block. -/
inductive NegotiationResult where
  | ok (data : String)
  | softFailure (message : String)
  deriving DecidableEq

/-- Submission adapter, src/cron_job.ts lines 164-200. The whole body is
    wrapped in try/catch and the catch returns a plain object, so the function
    is total as a map from the underlying HTTP outcome to a result value: no
    error ever reaches the caller. -/
def sendNegotiation (message : Option String) (post : HttpOutcome) : NegotiationResult :=
  match post with
  | .ok d => .ok d
  | .throws => .softFailure "An error occurred, but the operation has continued."

/-- True when the message field is appended to the negotiation form data: the
    code guards with a truthiness test, so both null and the empty string are
    omitted. From src/cron_job.ts lines 170-172. -/
def negotiationMessageIncluded : Option String → Bool
  | some m => m != ""
  | none => false

/-- Record of one sendNegotiation invocation made by the pipeline: the
    arguments passed, whether the message field was included in the form, and
    the (always soft) result. -/
structure NegotiationCall where
  vacancy_id : String
  resume_id : String
  message : Option String
  messageFieldIncluded : Bool
  result : NegotiationResult
  deriving DecidableEq

/-- Environment for the external calls made while evaluating one posting: the
    relevance completion, the resume-selection chain of the linked-account
    path (getSuitableResumeId, getOneResume and loadPDF collapsed to the chosen
    resume id and extracted text, where none models a rejection anywhere in the
    chain, which rejects the posting closure), the cover-letter completion, and
    the negotiation HTTP call. -/
structure VacancyOracle where
  classifier : ClassifierOutcome
  resumeChain : Option (String × String)
  generator : GeneratorOutcome
  submission : HttpOutcome
  deriving DecidableEq

/-- Replaces only the negotiation-call outcome of an environment. -/
def setSubmission (o : VacancyOracle) (x : HttpOutcome) : VacancyOracle :=
  ⟨o.classifier, o.resumeChain, o.generator, x⟩

/-- In-run dedup test, src/cron_job.ts line 485: same vacancy id, or same
    title with same employer name, or same title alone, against the records
    accumulated so far. -/
def dedupMatch (docs : List VacancyDoc) (v : Vacancy) : Bool :=
  docs.any fun doc =>
    doc.vacancy_id == v.id
      || (doc.job_name == v.name && doc.employer_name == v.employer_name)
      || doc.job_name == v.name

/-- Builds the record pushed onto vacancyDocs, src/cron_job.ts lines 510-524,
    restricted to the fields the pipeline reads back. -/
def mkVacancyDoc (user : User) (v : Vacancy) (coverLetter : Option String) : VacancyDoc :=
  ⟨v.id, v.name, v.employer_name, user.id, coverLetter⟩

/-- Evaluation of one posting of a page, src/cron_job.ts lines 481-527. In the
    source each posting runs as an async closure; the quota test (line 482) and
    the in-run dedup test (line 485) execute synchronously when the closures
    are created, before any sibling closure has pushed a record, so both read
    the state as of the start of the page (docs0, count0). Then follow the
    persisted-title lookup, the relevance check and generation. On the
    linked-account path the record is pushed whatever the cover-letter content
    and the negotiation outcome are; on the other path a falsy cover letter
    (null or the empty string, line 505) skips the posting. Returns the record
    pushed, if any, and the negotiation call made, if any. -/
def evalVacancy (user : User) (persistedTitles : List String) (quota : Nat)
    (docs0 : List VacancyDoc) (count0 : Nat) (v : Vacancy) (o : VacancyOracle) :
    Option VacancyDoc × Option NegotiationCall :=
  if count0 ≥ quota then (none, none)
  else if dedupMatch docs0 v then (none, none)
  else if persistedTitles.contains v.name then (none, none)
  else if !isSuitableVacancy o.classifier then (none, none)
  else if user.hasHHAccount then
    match o.resumeChain with
    | none => (none, none)
    | some rc =>
      let coverLetter := generateCoverLetter o.generator
      (some (mkVacancyDoc user v coverLetter),
        some ⟨v.id, rc.1, coverLetter, negotiationMessageIncluded coverLetter,
          sendNegotiation coverLetter o.submission⟩)
  else
    match generateCoverLetter o.generator with
    | none => (none, none)
    | some cl =>
      if cl == "" then (none, none)
      else (some (mkVacancyDoc user v (some cl)), none)

/-- Outcome of the per-page search-term extraction completion (the prompt and
    parse at src/cron_job.ts lines 452-471): rejected call, unparsable
    response, or an extracted position string. -/
inductive ExtractionOutcome where
  | throws
  | unparsable
  | ok (position : String)
  deriving DecidableEq

/-- Outcome of the hhService.getVacancy call for one page: rejected, or a page
    of items; each item carries the posting together with the environment for
    the calls its evaluation will make. -/
inductive FetchOutcome where
  | throws
  | page (items : List (Vacancy × VacancyOracle))
  deriving DecidableEq

/-- Environment for one iteration of the page loop. -/
structure PageOracle where
  extraction : ExtractionOutcome
  fetch : FetchOutcome
  deriving DecidableEq

/-- Mutable state of one criterion run: the vacancyDocs accumulator and the
    processedVacancies counter. -/
structure RunState where
  docs : List VacancyDoc
  count : Nat
  deriving DecidableEq

/-- Records produced by the settled closures of one page: every item is
    evaluated against the page-start state (see evalVacancy). -/
def pageNewDocs (user : User) (persistedTitles : List String) (quota : Nat)
    (s : RunState) (items : List (Vacancy × VacancyOracle)) : List VacancyDoc :=
  items.filterMap fun vo =>
    (evalVacancy user persistedTitles quota s.docs s.count vo.1 vo.2).1

/-- One iteration of the page loop body, src/cron_job.ts lines 452-534. A
    rejected or unparsable extraction, or a rejected fetch, lands in the catch
    block: the state is unchanged and the loop moves on (the quota break on
    line 531 sits inside the try block, so it is not reached). An empty page
    hits continue (line 479), which also skips the break test. Otherwise the
    closures of the page all settle, appending their records and incrementing
    the counter, and the boolean reports whether the quota break fires. -/
def processOnePage (user : User) (persistedTitles : List String) (quota : Nat)
    (s : RunState) (po : PageOracle) : RunState × Bool :=
  match po.extraction with
  | .throws => (s, false)
  | .unparsable => (s, false)
  | .ok _ =>
    match po.fetch with
    | .throws => (s, false)
    | .page items =>
      if items.length == 0 then (s, false)
      else
        let newDocs := pageNewDocs user persistedTitles quota s items
        (⟨s.docs ++ newDocs, s.count + newDocs.length⟩,
          decide (s.count + newDocs.length ≥ quota))

/-- Sequential page loop: processes one page after another, stopping early
    exactly when an iteration reports the quota break. The list holds the
    environments of pages 1, 2, ... in order. -/
def pageLoop (user : User) (persistedTitles : List String) (quota : Nat) :
    RunState → List PageOracle → RunState
  | s, [] => s
  | s, po :: rest =>
    let sb := processOnePage user persistedTitles quota s po
    if sb.2 then sb.1 else pageLoop user persistedTitles quota sb.1 rest

/-- One criterion run, src/cron_job.ts lines 445-547: guard on a missing
    positions list (line 446), quota computed from the total length of the
    positions list (line 448), the page loop over pages 1 to 6 starting from an
    empty accumulator, and the best-effort commit of everything accumulated
    (insertMany of vacancyDocs, lines 537-546). The free text of the criterion
    itself only feeds prompts, which the environments absorb. Returns the
    accumulated (committed) records; persistedTitles are the titles of the
    records already stored for this user, queried by the per-posting findOne
    (line 489), a set that does not change during the run because the insert
    happens after the loop. -/
def processVacancies (user : User) (persistedTitles : List String)
    (pages : List PageOracle) : List VacancyDoc :=
  match user.positions with
  | none => []
  | some ps =>
    (pageLoop user persistedTitles (getApplicationsPerPosition ps.length)
      ⟨[], 0⟩ (pages.take 6)).docs

/-- Concrete Active criterion used by the scenario runs below. -/
def examplePos : Position := ⟨"Python developer", "Active"⟩

/-- Concrete inactive criterion used by the scenario runs below. -/
def exampleInactive : Position := ⟨"Designer", "Inactive"⟩

/-- Posting environment where every call succeeds: suitable verdict, a cover
    letter, a working negotiation endpoint. -/
def suitableOracle : VacancyOracle :=
  ⟨.parsed true, none, .content (some "letter"), .ok "ok"⟩

/-- Page whose extraction succeeds and whose fetch returns zero items. -/
def emptyPage : PageOracle := ⟨.ok "Python developer", .page []⟩

/-- Generic user for witnesses: one Active criterion, no linked account. -/
def wUser : User := ⟨"w", some [examplePos], false, "", false⟩

/-- Generic posting for witnesses. -/
def wVac : Vacancy := ⟨"wv", "W Title", "W Emp"⟩

/-- Page with a single suitable posting, used to exercise the quota break. -/
def wBreakPage : PageOracle := ⟨.ok "p", .page [(wVac, suitableOracle)]⟩

/-- User with a linked external account, for the C10 witness. -/
def hUser : User := ⟨"hu", some [examplePos], true, "tok", false⟩

/-- Posting environment of the linked-account path whose generator yields no
    content. -/
def hOracle : VacancyOracle := ⟨.parsed true, some ("r1", "pdftext"), .throws, .ok "resp"⟩

/-- Positions list with one Active and seven Inactive entries (total 8). -/
def c2EightList : List Position :=
  [examplePos, exampleInactive, exampleInactive, exampleInactive,
    exampleInactive, exampleInactive, exampleInactive, exampleInactive]

/-- User owning c2EightList. -/
def c2UserEight : User := ⟨"u1", some c2EightList, false, "", false⟩

/-- User with the same single Active criterion and nothing else. -/
def c2UserOne : User := ⟨"u1", some [examplePos], false, "", false⟩

/-- First scenario page: two distinct suitable postings. -/
def c2Page1 : PageOracle :=
  ⟨.ok "Python developer",
    .page [(⟨"a1", "T1", "E1"⟩, suitableOracle), (⟨"a2", "T2", "E2"⟩, suitableOracle)]⟩

/-- Second scenario page: one further distinct suitable posting. -/
def c2Page2 : PageOracle :=
  ⟨.ok "Python developer", .page [(⟨"a3", "T3", "E3"⟩, suitableOracle)]⟩

/-- Six pages: two productive ones, then empty pages. -/
def c2Pages : List PageOracle :=
  [c2Page1, c2Page2, emptyPage, emptyPage, emptyPage, emptyPage]

/-- User for the quota-overshoot run: a single criterion, so quota 7. -/
def c3User : User := ⟨"u3", some [examplePos], false, "", false⟩

/-- Six pages whose first page carries eight distinct suitable postings. -/
def c3Pages : List PageOracle :=
  [⟨.ok "Python developer",
      .page [(⟨"b1", "U1", "F1"⟩, suitableOracle), (⟨"b2", "U2", "F2"⟩, suitableOracle),
        (⟨"b3", "U3", "F3"⟩, suitableOracle), (⟨"b4", "U4", "F4"⟩, suitableOracle),
        (⟨"b5", "U5", "F5"⟩, suitableOracle), (⟨"b6", "U6", "F6"⟩, suitableOracle),
        (⟨"b7", "U7", "F7"⟩, suitableOracle), (⟨"b8", "U8", "F8"⟩, suitableOracle)]⟩,
    emptyPage, emptyPage, emptyPage, emptyPage, emptyPage]

/-- User for the same-page duplicate-title run. -/
def c4User : User := ⟨"u4", some [examplePos], false, "", false⟩

/-- Six pages whose first page carries two suitable postings sharing title and
    employer but with distinct identifiers. -/
def c4Pages : List PageOracle :=
  [⟨.ok "Python developer",
      .page [(⟨"d1", "SameTitle", "SameEmp"⟩, suitableOracle),
        (⟨"d2", "SameTitle", "SameEmp"⟩, suitableOracle)]⟩,
    emptyPage, emptyPage, emptyPage, emptyPage, emptyPage]

/-- User for the extraction-failure run. -/
def c8User : User := ⟨"u8", some [examplePos], false, "", false⟩

/-- Page whose extraction completion rejects. -/
def c8FailPage : PageOracle := ⟨.throws, .throws⟩

/-- Page with one suitable posting, fetched after the failed page. -/
def c8GoodPage : PageOracle :=
  ⟨.ok "Python developer", .page [(⟨"e1", "V1", "G1"⟩, suitableOracle)]⟩

/-- Six pages: the first fails at extraction, the second succeeds. -/
def c8Pages : List PageOracle :=
  [c8FailPage, c8GoodPage, emptyPage, emptyPage, emptyPage, emptyPage]

/-- Helper: a record returned by evalVacancy carries the title and identifier
    of its posting, and could only be produced because neither the in-run dedup
    test nor the persisted-title test matched. -/
theorem evalVacancy_some (user : User) (T : List String) (q : Nat)
    (docs0 : List VacancyDoc) (c0 : Nat) (v : Vacancy) (o : VacancyOracle)
    (d : VacancyDoc) (h : (evalVacancy user T q docs0 c0 v o).1 = some d) :
    d.job_name = v.name ∧ d.vacancy_id = v.id ∧
      dedupMatch docs0 v = false ∧ T.contains v.name = false := by
  unfold evalVacancy at h
  split at h
  · simp at h
  · split at h
    · simp at h
    · split at h
      · simp at h
      · split at h
        · simp at h
        · rename_i hquota hdup hpers hsuit
          refine ?_
          have hdup' : dedupMatch docs0 v = false := by
            simpa using hdup
          have hpers' : T.contains v.name = false := by
            simpa using hpers
          split at h
          · split at h
            · simp at h
            · simp only [Prod.fst] at h
              cases h
              exact ⟨rfl, rfl, hdup', hpers'⟩
          · split at h
            · simp at h
            · split at h
              · simp at h
              · simp only [Prod.fst] at h
                cases h
                exact ⟨rfl, rfl, hdup', hpers'⟩

/-- C1: the quota policy is a pure total function of the criterion count:
    7 for counts at most 4, 2 for counts at least 8, 6 otherwise, and it is
    monotonically non-increasing in the count. -/
theorem quota_policy_step_and_monotone (c : Nat) :
    (c ≤ 4 → getApplicationsPerPosition c = 7)
    ∧ (8 ≤ c → getApplicationsPerPosition c = 2)
    ∧ (4 < c → c < 8 → getApplicationsPerPosition c = 6)
    ∧ ∀ c2 : Nat, c ≤ c2 → getApplicationsPerPosition c2 ≤ getApplicationsPerPosition c := by
  refine ⟨?_, ?_, ?_, ?_⟩
  · intro h
    unfold getApplicationsPerPosition
    split_ifs <;> omega
  · intro h
    unfold getApplicationsPerPosition
    split_ifs <;> omega
  · intro h1 h2
    unfold getApplicationsPerPosition
    split_ifs <;> omega
  · intro c2 h
    unfold getApplicationsPerPosition
    split_ifs <;> omega

/-- Witness for C1 at concrete counts: 3 maps to 7, 8 maps to 2, 6 maps to 6,
    and the value at 9 is at most the value at 5. -/
theorem quota_policy_step_and_monotone_witness :
    getApplicationsPerPosition 3 = 7 ∧ getApplicationsPerPosition 8 = 2
    ∧ getApplicationsPerPosition 6 = 6
    ∧ getApplicationsPerPosition 9 ≤ getApplicationsPerPosition 5 :=
  ⟨(quota_policy_step_and_monotone 3).1 (by decide),
    (quota_policy_step_and_monotone 8).2.1 (by decide),
    (quota_policy_step_and_monotone 6).2.2.1 (by decide) (by decide),
    (quota_policy_step_and_monotone 5).2.2.2 9 (by decide)⟩

/-- C5: when the relevance completion call rejects, or its response does not
    parse, the classifier reports not-suitable and the posting yields no
    record and no negotiation call. -/
theorem classifier_failure_yields_no_record (user : User) (T : List String)
    (q : Nat) (docs0 : List VacancyDoc) (c0 : Nat) (v : Vacancy) (o : VacancyOracle)
    (h : o.classifier = ClassifierOutcome.throws ∨ o.classifier = ClassifierOutcome.unparsable) :
    isSuitableVacancy o.classifier = false ∧
      evalVacancy user T q docs0 c0 v o = (none, none) := by
  have hs : isSuitableVacancy o.classifier = false := by
    rcases h with h | h <;> simp [h, isSuitableVacancy]
  refine ⟨hs, ?_⟩
  unfold evalVacancy
  rw [hs]
  simp

/-- Witness for C5 at a concrete posting whose relevance call rejects. -/
theorem classifier_failure_yields_no_record_witness :
    isSuitableVacancy (VacancyOracle.mk ClassifierOutcome.throws none
        (GeneratorOutcome.content (some "x")) (HttpOutcome.ok "r")).classifier = false ∧
      evalVacancy wUser [] 7 [] 0 wVac
        ⟨ClassifierOutcome.throws, none, GeneratorOutcome.content (some "x"), HttpOutcome.ok "r"⟩
        = (none, none) :=
  classifier_failure_yields_no_record wUser [] 7 [] 0 wVac
    ⟨ClassifierOutcome.throws, none, GeneratorOutcome.content (some "x"), HttpOutcome.ok "r"⟩
    (Or.inl rfl)

/-- C6: for a user without a linked external account, a posting whose
    generator returns no content yields no record: nothing with empty content
    is accumulated. -/
theorem generator_none_skips_posting (user : User) (T : List String) (q : Nat)
    (docs0 : List VacancyDoc) (c0 : Nat) (v : Vacancy) (o : VacancyOracle)
    (hacc : user.hasHHAccount = false)
    (hgen : generateCoverLetter o.generator = none) :
    evalVacancy user T q docs0 c0 v o = (none, none) := by
  unfold evalVacancy
  rw [hacc, hgen]
  simp

/-- Witness for C6: a concrete user without a linked account and a posting
    whose generator call rejects. -/
theorem generator_none_skips_posting_witness :
    evalVacancy wUser [] 7 [] 0 wVac
      ⟨ClassifierOutcome.parsed true, none, GeneratorOutcome.throws, HttpOutcome.ok "r"⟩
      = (none, none) :=
  generator_none_skips_posting wUser [] 7 [] 0 wVac
    ⟨ClassifierOutcome.parsed true, none, GeneratorOutcome.throws, HttpOutcome.ok "r"⟩
    rfl rfl

/-- C7: the submission adapter converts a rejected HTTP call into the
    soft-failure value (it is total, so nothing is thrown to the caller), and
    the record accumulated for a posting does not depend on the outcome of the
    negotiation call. -/
theorem submission_failure_soft_and_record_kept (msg : Option String)
    (user : User) (T : List String) (q : Nat) (docs0 : List VacancyDoc)
    (c0 : Nat) (v : Vacancy) (o : VacancyOracle) (x : HttpOutcome) :
    sendNegotiation msg HttpOutcome.throws
        = NegotiationResult.softFailure "An error occurred, but the operation has continued."
      ∧ (evalVacancy user T q docs0 c0 v (setSubmission o x)).1
        = (evalVacancy user T q docs0 c0 v o).1 := by
  refine ⟨rfl, ?_⟩
  cases o with
  | mk cls rc gen sub =>
    unfold evalVacancy setSubmission
    cases rc with
    | none => simp
    | some p =>
      cases hg : generateCoverLetter gen
      all_goals simp only [hg]
      all_goals split_ifs <;> rfl

/-- C10: on the linked-account path, a posting that passes the quota, dedup
    and relevance gates yields a record even when the generator returns no
    content; the record carries a null cover letter and the same null value is
    passed as the negotiation message, whose form field is then omitted. -/
theorem linked_account_null_letter_record (user : User) (T : List String)
    (q : Nat) (docs0 : List VacancyDoc) (c0 : Nat) (v : Vacancy)
    (o : VacancyOracle) (rid pdf : String)
    (hacc : user.hasHHAccount = true)
    (hq : c0 < q)
    (hd : dedupMatch docs0 v = false)
    (hp : T.contains v.name = false)
    (hs : isSuitableVacancy o.classifier = true)
    (hrc : o.resumeChain = some (rid, pdf))
    (hg : generateCoverLetter o.generator = none) :
    evalVacancy user T q docs0 c0 v o
      = (some (mkVacancyDoc user v none),
        some ⟨v.id, rid, none, false, sendNegotiation none o.submission⟩) := by
  have hnq : ¬ c0 ≥ q := Nat.not_le.mpr hq
  unfold evalVacancy
  rw [hd, hp, hs, hacc, hrc, hg]
  simp [hnq, negotiationMessageIncluded]

/-- Witness for C10 at a concrete linked-account user and posting whose
    generator call rejects: the record is accumulated with a null cover letter
    and the negotiation call receives a null message. -/
theorem linked_account_null_letter_record_witness :
    evalVacancy hUser [] 7 [] 0 wVac hOracle
      = (some (mkVacancyDoc hUser wVac none),
        some ⟨wVac.id, "r1", none, false, NegotiationResult.ok "resp"⟩) :=
  linked_account_null_letter_record hUser [] 7 [] 0 wVac hOracle "r1" "pdftext"
    rfl (by decide) (by decide) (by decide) rfl rfl rfl

/-- Helper: evaluating a posting only reads the identifier and the
    linked-account flag of the user, so two users agreeing on those two fields
    produce the same page iteration. -/
theorem processOnePage_user_fields (id : String) (p1 p2 : Option (List Position))
    (hh : Bool) (tok1 tok2 : String) (sal1 sal2 : Bool) (T : List String)
    (q : Nat) (s : RunState) (po : PageOracle) :
    processOnePage ⟨id, p1, hh, tok1, sal1⟩ T q s po
      = processOnePage ⟨id, p2, hh, tok2, sal2⟩ T q s po := rfl

/-- Helper: the page loop only reads the identifier and the linked-account
    flag of the user. -/
theorem pageLoop_user_fields (id : String) (p1 p2 : Option (List Position))
    (hh : Bool) (tok1 tok2 : String) (sal1 sal2 : Bool) (T : List String)
    (q : Nat) (pages : List PageOracle) (s : RunState) :
    pageLoop ⟨id, p1, hh, tok1, sal1⟩ T q s pages
      = pageLoop ⟨id, p2, hh, tok2, sal2⟩ T q s pages := by
  induction pages generalizing s with
  | nil => rfl
  | cons po rest ih =>
    simp only [pageLoop]
    rw [processOnePage_user_fields id p1 p2 hh tok1 tok2 sal1 sal2 T q s po]
    by_cases h2 : (processOnePage ⟨id, p2, hh, tok2, sal2⟩ T q s po).2
    · simp [h2]
    · simp [h2, ih]

/-- C2 (amended): the quota used by a criterion run is computed from the total
    length of the positions list of the user, regardless of the statuses of its
    entries: overwriting every status (and the token and salary fields, which
    the run also never branches on) leaves the whole run output unchanged. -/
theorem quota_ignores_position_status (id : String) (ps : List Position)
    (g : Position → String) (hh : Bool) (tok1 tok2 : String) (sal1 sal2 : Bool)
    (T : List String) (pages : List PageOracle) :
    processVacancies ⟨id, some (ps.map fun p => ⟨p.position, g p⟩), hh, tok2, sal2⟩ T pages
      = processVacancies ⟨id, some ps, hh, tok1, sal1⟩ T pages := by
  unfold processVacancies
  simp only [List.length_map]
  rw [pageLoop_user_fields id (some (ps.map fun p => ⟨p.position, g p⟩)) (some ps)
    hh tok2 tok1 sal2 sal1 T (getApplicationsPerPosition ps.length) (pages.take 6) ⟨[], 0⟩]

/-- Counterexample to C2 as stated: two users with identical Active criteria
    (both have exactly the one Active criterion that processUsers would run,
    and active count 1) but different totals behave differently on the same
    environment: the user with seven extra Inactive criteria is cut off at two
    records (quota 2 from total 8) while the other accumulates three (quota 7
    from total 1), so the quota is not a function of the active-criterion
    count. -/
theorem quota_uses_total_positions_cex :
    positionsProcessed c2EightList = positionsProcessed [examplePos]
      ∧ activeCriterionCount c2EightList = 1
      ∧ activeCriterionCount [examplePos] = 1
      ∧ (processVacancies c2UserEight [] c2Pages).length = 2
      ∧ (processVacancies c2UserOne [] c2Pages).length = 3 := by
  refine ⟨by decide, by decide, by decide, by decide, by decide⟩

/-- C3: run of the code at the failing input: a user with one saved criterion
    has quota 7, yet a first page of eight distinct suitable postings commits
    eight records, because the per-posting quota tests all read the page-start
    count before any sibling closure increments it. -/
theorem quota_overshoot_single_page :
    getApplicationsPerPosition 1 = 7
      ∧ (processVacancies c3User [] c3Pages).length = 8
      ∧ 7 < (processVacancies c3User [] c3Pages).length := by
  refine ⟨by decide, by decide, by decide⟩

/-- C4 (amended): a posting is skipped whenever its DedupKey matches a record
    accumulated before its page began evaluating, or a persisted record with
    the same title; hence every record added by a page iteration is either an
    old one or has a DedupKey (identifier, title, employer) matching no record
    accumulated in an earlier page and a title absent from the persisted set.
    Two same-title postings of a single page both pass the test. -/
theorem dedup_fresh_title_per_page (user : User) (T : List String) (q : Nat)
    (s : RunState) (po : PageOracle) (d : VacancyDoc)
    (hd : d ∈ (processOnePage user T q s po).1.docs) :
    d ∈ s.docs ∨
      (dedupMatch s.docs ⟨d.vacancy_id, d.job_name, d.employer_name⟩ = false
        ∧ T.contains d.job_name = false) := by
  cases po with
  | mk ext f =>
    cases ext with
    | throws => exact Or.inl hd
    | unparsable => exact Or.inl hd
    | ok pos =>
      cases f with
      | throws => exact Or.inl hd
      | page items =>
        by_cases he : items.length == 0
        · have hp : processOnePage user T q s ⟨ExtractionOutcome.ok pos, FetchOutcome.page items⟩
              = (s, false) := by
            simp [processOnePage, he]
          rw [hp] at hd
          exact Or.inl hd
        · have hp : (processOnePage user T q s
                ⟨ExtractionOutcome.ok pos, FetchOutcome.page items⟩).1.docs
              = s.docs ++ pageNewDocs user T q s items := by
            simp [processOnePage, he]
          rw [hp] at hd
          rcases List.mem_append.mp hd with hold | hnew
          · exact Or.inl hold
          · right
            obtain ⟨vo, hvo, hev⟩ := List.mem_filterMap.mp hnew
            obtain ⟨hjn, hvid, hdup, hpers⟩ :=
              evalVacancy_some user T q s.docs s.count vo.1 vo.2 d hev
            have hemp : d.employer_name = vo.1.employer_name := by
              unfold evalVacancy at hev
              split at hev
              · simp at hev
              · split at hev
                · simp at hev
                · split at hev
                  · simp at hev
                  · split at hev
                    · simp at hev
                    · split at hev
                      · split at hev
                        · simp at hev
                        · simp only [Prod.fst] at hev
                          cases hev
                          rfl
                      · split at hev
                        · simp at hev
                        · split at hev
                          · simp at hev
                          · simp only [Prod.fst] at hev
                            cases hev
                            rfl
            have hv : (⟨d.vacancy_id, d.job_name, d.employer_name⟩ : Vacancy) = vo.1 := by
              rw [hjn, hvid, hemp]
            rw [hv, hjn]
            exact ⟨hdup, hpers⟩

/-- Witness for C4 (amended) at a concrete page producing one record from an
    empty accumulator. -/
theorem dedup_fresh_title_per_page_witness :
    mkVacancyDoc wUser wVac (some "letter") ∈ (⟨[], 0⟩ : RunState).docs ∨
      (dedupMatch (⟨[], 0⟩ : RunState).docs
          ⟨(mkVacancyDoc wUser wVac (some "letter")).vacancy_id,
            (mkVacancyDoc wUser wVac (some "letter")).job_name,
            (mkVacancyDoc wUser wVac (some "letter")).employer_name⟩ = false
        ∧ List.contains [] (mkVacancyDoc wUser wVac (some "letter")).job_name = false) :=
  dedup_fresh_title_per_page wUser [] 7 ⟨[], 0⟩ wBreakPage
    (mkVacancyDoc wUser wVac (some "letter")) (by decide)

/-- Counterexample to C4 as stated: two postings sharing title and employer on
    the same page both yield records, because each in-run dedup test reads the
    page-start accumulator before either sibling has pushed, so one
    (user, title, employer) combination yields two records in one run. -/
theorem dedup_same_page_duplicate_cex :
    processVacancies c4User [] c4Pages
        = [⟨"d1", "SameTitle", "SameEmp", "u4", some "letter"⟩,
          ⟨"d2", "SameTitle", "SameEmp", "u4", some "letter"⟩]
      ∧ (processVacancies c4User [] c4Pages).map VacancyDoc.job_name
        = ["SameTitle", "SameTitle"] := by
  refine ⟨by decide, by decide⟩

/-- C8 (amended): a failed or unparsable extraction lands in the per-page
    catch block: only that page is abandoned and the loop continues with the
    next page, the state unchanged. -/
theorem extraction_failure_continues_next_page (user : User) (T : List String)
    (q : Nat) (s : RunState) (po : PageOracle) (rest : List PageOracle)
    (h : po.extraction = ExtractionOutcome.throws
      ∨ po.extraction = ExtractionOutcome.unparsable) :
    pageLoop user T q s (po :: rest) = pageLoop user T q s rest := by
  have hpo : processOnePage user T q s po = (s, false) := by
    cases po with
    | mk ext f =>
      have h2 : ext = ExtractionOutcome.throws ∨ ext = ExtractionOutcome.unparsable := h
      rcases h2 with h2 | h2 <;> rw [h2] <;> rfl
  simp [pageLoop, hpo]

/-- Witness for C8 (amended): a concrete page whose extraction rejects is
    skipped and the loop proceeds with the following page. -/
theorem extraction_failure_continues_next_page_witness :
    pageLoop wUser [] 7 ⟨[], 0⟩ (c8FailPage :: [emptyPage])
      = pageLoop wUser [] 7 ⟨[], 0⟩ [emptyPage] :=
  extraction_failure_continues_next_page wUser [] 7 ⟨[], 0⟩ c8FailPage [emptyPage]
    (Or.inl rfl)

/-- Counterexample to C8 as stated: the first page fails at extraction, yet
    the run is not aborted: the second page is still fetched and evaluated and
    its posting is committed, because the extraction happens inside the page
    loop and its failure is caught per page, not once per run. -/
theorem extraction_failure_skips_only_page_cex :
    c8Pages.head? = some c8FailPage
      ∧ c8FailPage.extraction = ExtractionOutcome.throws
      ∧ (processVacancies c8User [] c8Pages).length = 1 := by
  refine ⟨rfl, rfl, by decide⟩

/-- C9: the page loop consults at most the first six page environments (hard
    cap), a page with zero postings makes the loop continue with the next page
    rather than terminate, and an iteration that reports the quota break (which
    means the accumulated count reached the quota) stops the pagination: the
    remaining pages are never consulted. -/
theorem page_loop_cap_empty_continue_quota_stop (user : User) (T : List String)
    (q : Nat) (pages : List PageOracle) (s : RunState) (pos : String)
    (po1 po2 : PageOracle) (rest1 rest2 : List PageOracle) (s2 : RunState) :
    processVacancies user T pages = processVacancies user T (pages.take 6)
    ∧ (po1 = ⟨ExtractionOutcome.ok pos, FetchOutcome.page []⟩ →
        pageLoop user T q s (po1 :: rest1) = pageLoop user T q s rest1)
    ∧ (processOnePage user T q s po2 = (s2, true) →
        q ≤ s2.count ∧ pageLoop user T q s (po2 :: rest2) = s2) := by
  refine ⟨?_, ?_, ?_⟩
  · unfold processVacancies
    cases user.positions <;> simp [List.take_take]
  · intro h1
    subst h1
    have hpo : processOnePage user T q s ⟨ExtractionOutcome.ok pos, FetchOutcome.page []⟩
        = (s, false) := rfl
    simp [pageLoop, hpo]
  · intro h2
    constructor
    · unfold processOnePage at h2
      split at h2
      · simp at h2
      · simp at h2
      · split at h2
        · simp at h2
        · split at h2
          · simp at h2
          · rw [Prod.mk.injEq] at h2
            obtain ⟨hs2, hdec⟩ := h2
            have hge := of_decide_eq_true hdec
            rw [← hs2]
            exact hge
    · simp [pageLoop, h2]

/-- Witness for C9 at concrete environments: seven pages behave as their first
    six, an empty first page falls through to the next page, and a page whose
    single suitable posting reaches a quota of one stops the loop there. -/
theorem page_loop_cap_empty_continue_quota_stop_witness :
    processVacancies wUser [] (List.replicate 7 emptyPage)
        = processVacancies wUser [] ((List.replicate 7 emptyPage).take 6)
      ∧ pageLoop wUser [] 1 ⟨[], 0⟩
          (⟨ExtractionOutcome.ok "p", FetchOutcome.page []⟩ :: [emptyPage])
        = pageLoop wUser [] 1 ⟨[], 0⟩ [emptyPage]
      ∧ 1 ≤ (⟨[mkVacancyDoc wUser wVac (some "letter")], 1⟩ : RunState).count
      ∧ pageLoop wUser [] 1 ⟨[], 0⟩ (wBreakPage :: [emptyPage])
        = ⟨[mkVacancyDoc wUser wVac (some "letter")], 1⟩ := by
  have h := page_loop_cap_empty_continue_quota_stop wUser [] 1
    (List.replicate 7 emptyPage) ⟨[], 0⟩ "p"
    ⟨ExtractionOutcome.ok "p", FetchOutcome.page []⟩ wBreakPage
    [emptyPage] [emptyPage] ⟨[mkVacancyDoc wUser wVac (some "letter")], 1⟩
  exact ⟨h.1, h.2.1 rfl, (h.2.2 (by decide)).1, (h.2.2 (by decide)).2⟩

end CronJob
